import Mathlib

/-!
Verification of the date-planner application (a Next.js trip-itinerary
planner).  The development shallowly embeds the authorization utilities
(src/utils/auth_utils.ts), the API route handlers for itinerary stops and
suggestions, and the persistence contract implied by the Prisma migration,
and proves the behavioural properties stated in the specification.

Modelling conventions:
* JavaScript values that flow through request bodies are modelled by
  `JsVal` (undefined, null, string, number); numbers are modelled as `Int`,
  which is enough for every property considered here (no arithmetic beyond
  truthiness and sign is performed on them).
* `process.env` is modelled by the `Env` structure with one field per
  environment variable read by the source.
* A request header that is absent is `none`; `===` between possibly
  undefined strings is `jsStrictEq`.
* JavaScript ASCII case conversion is modelled by `jsToUpper`,
  `jsToLower` and `jsTitleCase` (the latter models
  `s.charAt(0).toUpperCase() + s.slice(1).toLowerCase()`).
-/

namespace DatePlanner

/-- Model of a JavaScript value as it appears in a parsed JSON request body:
absent key (undefined), null, string, or number. -/
inductive JsVal where
  | undef
  | null
  | str (s : String)
  | num (n : Int)
deriving DecidableEq, Repr

/-- JavaScript truthiness of a `JsVal`: undefined, null, the empty string
and 0 are falsy, everything else is truthy. -/
def truthy : JsVal → Bool
  | .undef => false
  | .null => false
  | .str s => !(s == "")
  | .num n => !(n == 0)

/-- JavaScript truthiness of a possibly undefined string (a header value or
an environment variable): undefined and the empty string are falsy. -/
def truthyOpt : Option String → Bool
  | none => false
  | some s => !(s == "")

/-- JavaScript strict equality between two possibly undefined strings:
`undefined === undefined` is true, `undefined === s` is false, and two
strings compare by exact value with no normalization. -/
def jsStrictEq : Option String → Option String → Bool
  | some a, some b => a == b
  | none, none => true
  | _, _ => false

/-- JavaScript `a || b` on body values, used by the source in
`notes: notes || null`. -/
def jsOr (a b : JsVal) : JsVal :=
  if truthy a then a else b

/-- JavaScript ASCII upper-casing of one character, as performed by
`String.prototype.toUpperCase` on ASCII input. -/
def jsCharToUpper (c : Char) : Char :=
  if 97 ≤ c.toNat ∧ c.toNat ≤ 122 then Char.ofNat (c.toNat - 32) else c

/-- JavaScript ASCII lower-casing of one character, as performed by
`String.prototype.toLowerCase` on ASCII input. -/
def jsCharToLower (c : Char) : Char :=
  if 65 ≤ c.toNat ∧ c.toNat ≤ 90 then Char.ofNat (c.toNat + 32) else c

/-- Model of `s.toUpperCase()` on ASCII strings. -/
def jsToUpper (s : String) : String := String.mk (s.data.map jsCharToUpper)

/-- Model of `s.toLowerCase()` on ASCII strings. -/
def jsToLower (s : String) : String := String.mk (s.data.map jsCharToLower)

/-- Model of `s.charAt(0).toUpperCase() + s.slice(1).toLowerCase()`, the
title-casing used by the suggestions endpoints in src/pages/api. -/
def jsTitleCase (s : String) : String :=
  match s.data with
  | [] => ""
  | c :: rest => String.mk (jsCharToUpper c :: rest.map jsCharToLower)

/-- The environment variables read by src/utils/auth_utils.ts.  Each field
is `none` when the variable is unset. -/
structure Env where
  NEXT_PUBLIC_ADMIN_SECRET : Option String
  NEXT_PUBLIC_TRUSTED_SECRET : Option String
  ADMIN_SECRET_KEY : Option String
  TRUSTED_USER_KEY : Option String
deriving DecidableEq, Repr

/-- The role argument of `isAuthorized` in src/utils/auth_utils.ts. -/
inductive Role where
  | admin
  | trusted
deriving DecidableEq, Repr

/-- A parsed JSON request body, one field per body key read by any handler;
an absent key is `JsVal.undef`. -/
structure ReqBody where
  userId : JsVal
  title : JsVal
  text : JsVal
  status : JsVal
  id : JsVal
  day : JsVal
  time : JsVal
  name : JsVal
  purpose : JsVal
  notes : JsVal
  latitude : JsVal
  longitude : JsVal
deriving DecidableEq, Repr

/-- The request body with no keys at all (`{}` or an empty body). -/
def emptyBody : ReqBody :=
  ⟨.undef, .undef, .undef, .undef, .undef, .undef, .undef, .undef, .undef,
   .undef, .undef, .undef⟩

/-- Model of `Object.keys(body).length` for a parsed body: the number of
keys that are present. -/
def bodyKeyCount (b : ReqBody) : Nat :=
  [b.userId, b.title, b.text, b.status, b.id, b.day, b.time, b.name,
   b.purpose, b.notes, b.latitude, b.longitude].countP (· ≠ .undef)

/-- An inbound API request: HTTP method, the x-auth-secret header (absent
or a string), the dynamic id segment, the status and day query parameters,
and the parsed body. -/
structure ApiRequest where
  method : String
  xAuthSecret : Option String
  queryId : Option String
  queryStatus : Option String
  queryDay : Option String
  body : ReqBody
deriving DecidableEq, Repr

/-- Embedding of `isAuthorized` from src/utils/auth_utils.ts: looks up the
role-specific environment variable (NEXT_PUBLIC_ADMIN_SECRET for admin,
NEXT_PUBLIC_TRUSTED_SECRET for trusted), fails closed when it is unset or
empty, and otherwise compares the x-auth-secret header strictly against
it. -/
def isAuthorized (env : Env) (req : ApiRequest) (requiredRole : Role) : Bool :=
  let secretFromHeader := req.xAuthSecret
  let requiredKey : Option String :=
    match requiredRole with
    | .admin => env.NEXT_PUBLIC_ADMIN_SECRET
    | .trusted => env.NEXT_PUBLIC_TRUSTED_SECRET
  if !(truthyOpt requiredKey) then false
  else jsStrictEq secretFromHeader requiredKey

/-- Embedding of `isAdminOrTrustedAuthorized` from
src/utils/auth_utils.ts: requires a truthy x-auth-secret header and
accepts it when it strictly equals either ADMIN_SECRET_KEY or
TRUSTED_USER_KEY. -/
def isAdminOrTrustedAuthorized (env : Env) (req : ApiRequest) : Bool :=
  let secretFromHeader := req.xAuthSecret
  let adminKey := env.ADMIN_SECRET_KEY
  let trustedKey := env.TRUSTED_USER_KEY
  if !(truthyOpt secretFromHeader) then false
  else jsStrictEq secretFromHeader adminKey || jsStrictEq secretFromHeader trustedKey

/-- Modelled from the spec: `isAdminAuthorized` is imported by several
handlers from src/utils/auth_utils.ts but that file does not define it, so
this is the missing definition, modelled as the "is exactly admin"
predicate the spec describes, which is exactly `isAuthorized` with the
admin role. -/
def isAdminAuthorized (env : Env) (req : ApiRequest) : Bool :=
  isAuthorized env req .admin

/-- The SuggestionStatus enum generated by Prisma from the migration:
CREATE TYPE "SuggestionStatus" AS ENUM ('Pending', 'Approved',
'Rejected'). -/
inductive SuggestionStatus where
  | Pending
  | Approved
  | Rejected
deriving DecidableEq, Repr

/-- Model of `Object.values(SuggestionStatus).includes(s)` followed by the
cast to the enum: the generated Prisma client maps each member to its
title-case name, so membership holds exactly for the three title-case
strings. -/
def statusFromString (s : String) : Option SuggestionStatus :=
  if s == "Pending" then some .Pending
  else if s == "Approved" then some .Approved
  else if s == "Rejected" then some .Rejected
  else none

/-- A stored trip_places row.  Body fields are kept as the JavaScript
values the handler passed to the persistence layer. -/
structure TripPlaceRec where
  id : String
  day : JsVal
  time : JsVal
  name : JsVal
  purpose : JsVal
  notes : JsVal
  latitude : JsVal
  longitude : JsVal
deriving DecidableEq, Repr

/-- A stored suggestions row. -/
structure SuggestionRec where
  id : String
  userId : JsVal
  title : JsVal
  text : JsVal
  status : SuggestionStatus
deriving DecidableEq, Repr

/-- A persistence operation invoked by a handler, recorded so that
theorems can state that a protected operation was never reached. -/
inductive StoreOp where
  | update (id : String)
  | del (id : String)
deriving DecidableEq, Repr

/-- Modelled from the spec: `createTripPlace` of the missing
services/prisma_service.ts appends a new row holding exactly the data the
handler passed; the opaque generated id is modelled deterministically from
the store size. -/
def createTripPlace (store : List TripPlaceRec)
    (day time name purpose notes latitude longitude : JsVal) :
    TripPlaceRec × List TripPlaceRec :=
  let p : TripPlaceRec :=
    { id := toString store.length, day := day, time := time, name := name,
      purpose := purpose, notes := notes, latitude := latitude,
      longitude := longitude }
  (p, store ++ [p])

/-- Modelled from the spec: `updateTripPlace` of the missing
services/prisma_service.ts merges the provided body fields into the row
with the given id, or fails (Prisma error P2025) when no row has that
id. -/
def updateTripPlace (id : String) (b : ReqBody) (store : List TripPlaceRec) :
    Option (TripPlaceRec × List TripPlaceRec) :=
  match store.find? (fun p => p.id == id) with
  | none => none
  | some p =>
    let merged : TripPlaceRec :=
      { id := p.id,
        day := if b.day == .undef then p.day else b.day,
        time := if b.time == .undef then p.time else b.time,
        name := if b.name == .undef then p.name else b.name,
        purpose := if b.purpose == .undef then p.purpose else b.purpose,
        notes := if b.notes == .undef then p.notes else b.notes,
        latitude := if b.latitude == .undef then p.latitude else b.latitude,
        longitude := if b.longitude == .undef then p.longitude else b.longitude }
    some (merged, store.map (fun q => if q.id == id then merged else q))

/-- Modelled from the spec: `deleteTripPlace` of the missing
services/prisma_service.ts removes the row with the given id and returns
it, or fails (Prisma error P2025) when no row has that id. -/
def deleteTripPlace (id : String) (store : List TripPlaceRec) :
    Option (TripPlaceRec × List TripPlaceRec) :=
  match store.find? (fun p => p.id == id) with
  | none => none
  | some p => some (p, store.filter (fun q => !(q.id == id)))

/-- Modelled from the spec: `createSuggestion` of the missing
services/prisma_service.ts inserts a row with the given userId, title and
text; the status column is not supplied, so the row receives the
migration's column default, Pending. -/
def createSuggestion (store : List SuggestionRec)
    (userId title text : JsVal) : SuggestionRec × List SuggestionRec :=
  let srec : SuggestionRec :=
    { id := toString store.length, userId := userId, title := title,
      text := text, status := .Pending }
  (srec, store ++ [srec])

/-- Modelled from the spec: `getSuggestions` of the missing
services/prisma_service.ts lists the rows, restricted to the given status
when a filter is supplied. -/
def getSuggestions (filter : Option SuggestionStatus)
    (store : List SuggestionRec) : List SuggestionRec :=
  match filter with
  | none => store
  | some st => store.filter (fun s => s.status == st)

/-- Modelled from the spec: `updateSuggestionStatus` of the missing
services/prisma_service.ts sets the status of the row with the given id,
or fails (Prisma error P2025) when no row has that id. -/
def updateSuggestionStatus (id : String) (st : SuggestionStatus)
    (store : List SuggestionRec) :
    Option (SuggestionRec × List SuggestionRec) :=
  match store.find? (fun s => s.id == id) with
  | none => none
  | some s =>
    let updated : SuggestionRec :=
      { id := s.id, userId := s.userId, title := s.title, text := s.text,
        status := st }
    some (updated, store.map (fun q => if q.id == id then updated else q))

/-- Predicate for `typeof v === 'number'` on a body value. -/
def isNum : JsVal → Bool
  | .num _ => true
  | _ => false

/-- Model of `parseInt(s, 10)` restricted to what the day-filter branch
needs: `none` models NaN.  (Partial numeric prefixes of parseInt are not
modelled; no property below depends on the day filter.) -/
def jsParseInt (s : String) : Option Int := s.toInt?

/-- Response of the /api/itinerary collection handlers together with the
resulting store. -/
structure ItinResult where
  status : Nat
  error : Option String
  created : Option TripPlaceRec
  listing : Option (List TripPlaceRec)
  store : List TripPlaceRec
deriving DecidableEq, Repr

/-- Response of the /api/itinerary/[id] handler together with the
resulting store and the persistence operations it invoked. -/
structure ItinIdResult where
  status : Nat
  error : Option String
  store : List TripPlaceRec
  ops : List StoreOp
deriving DecidableEq, Repr

/-- Response of the suggestions handlers together with the resulting
store and the persistence operations they invoked. -/
structure SugResult where
  status : Nat
  error : Option String
  payload : Option SuggestionRec
  listing : Option (List SuggestionRec)
  store : List SuggestionRec
  ops : List StoreOp
deriving DecidableEq, Repr

/-- Shared embedding of the GET branch of both /api/itinerary variants:
public read with an optional day query filter validated to be a positive
integer. -/
def itineraryGet (req : ApiRequest) (store : List TripPlaceRec)
    (badDayMsg : String) : ItinResult :=
  match req.queryDay with
  | none =>
    { status := 200, error := none, created := none, listing := some store,
      store := store }
  | some d =>
    if d == "" then
      { status := 200, error := none, created := none, listing := some store,
        store := store }
    else
      match jsParseInt d with
      | none =>
        { status := 400, error := some badDayMsg, created := none,
          listing := none, store := store }
      | some n =>
        if n < 1 then
          { status := 400, error := some badDayMsg, created := none,
            listing := none, store := store }
        else
          { status := 200, error := none, created := none,
            listing := some (store.filter (fun p => p.day == .num n)),
            store := store }

/-- Embedding of the first /api/itinerary handler variant
(src/unnamed/part_002, first file): GET is public; POST is gated by
`isAdminAuthorized` and validates only the truthiness of day, time, name
and purpose and the presence of latitude and longitude. -/
def itineraryHandlerV1 (env : Env) (req : ApiRequest)
    (store : List TripPlaceRec) : ItinResult :=
  if req.method == "GET" then
    itineraryGet req store "Invalid day parameter."
  else if req.method == "POST" then
    if !(isAdminAuthorized env req) then
      { status := 403, error := some "Forbidden: Admin access required for creation.",
        created := none, listing := none, store := store }
    else
      let b := req.body
      if !(truthy b.day) || !(truthy b.time) || !(truthy b.name) ||
          !(truthy b.purpose) || b.latitude == .undef || b.longitude == .undef then
        { status := 400,
          error := some "Missing required fields for TripPlace creation.",
          created := none, listing := none, store := store }
      else
        let (p, store2) :=
          createTripPlace store b.day b.time b.name b.purpose b.notes
            b.latitude b.longitude
        { status := 201, error := none, created := some p, listing := none,
          store := store2 }
  else
    { status := 405, error := some "Method Not Allowed", created := none,
      listing := none, store := store }

/-- Embedding of the second /api/itinerary handler variant
(src/unnamed/part_002, second file): GET is public; POST is gated by
`isAuthorized(req, 'admin')` and additionally requires day, latitude and
longitude to be numbers; notes defaults to null. -/
def itineraryHandlerV2 (env : Env) (req : ApiRequest)
    (store : List TripPlaceRec) : ItinResult :=
  if req.method == "GET" then
    itineraryGet req store "Invalid day parameter. Must be a positive integer."
  else if req.method == "POST" then
    if !(isAuthorized env req .admin) then
      { status := 403,
        error := some "Forbidden: Authentication required to create new itinerary places.",
        created := none, listing := none, store := store }
    else
      let b := req.body
      if !(truthy b.day) || !(isNum b.day) || !(truthy b.time) ||
          !(truthy b.name) || !(truthy b.purpose) ||
          b.latitude == .undef || !(isNum b.latitude) ||
          b.longitude == .undef || !(isNum b.longitude) then
        { status := 400,
          error := some "Missing or invalid required fields for TripPlace creation. Ensure day, time, name, purpose, latitude, and longitude are correctly provided.",
          created := none, listing := none, store := store }
      else
        let (p, store2) :=
          createTripPlace store b.day b.time b.name b.purpose
            (jsOr b.notes .null) b.latitude b.longitude
        { status := 201, error := none, created := some p, listing := none,
          store := store2 }
  else
    { status := 405, error := some "Method Not Allowed", created := none,
      listing := none, store := store }

/-- Embedding of the /api/itinerary/[id] handler
(src/pages/api/itinerary/[id].ts): after requiring a truthy id, PUT is
gated by `isAdminOrTrustedAuthorized` and rejects an empty body, while
DELETE is gated by `isAuthorized(req, 'admin')`; a missing row surfaces as
404 via the Prisma P2025 catch. -/
def itineraryIdHandler (env : Env) (req : ApiRequest)
    (store : List TripPlaceRec) : ItinIdResult :=
  match req.queryId with
  | none =>
    { status := 400, error := some "TripPlace ID is required in the URL path.",
      store := store, ops := [] }
  | some id =>
    if id == "" then
      { status := 400, error := some "TripPlace ID is required in the URL path.",
        store := store, ops := [] }
    else if req.method == "PUT" then
      if !(isAdminOrTrustedAuthorized env req) then
        { status := 403,
          error := some "Forbidden: Authentication required to update itinerary places.",
          store := store, ops := [] }
      else if bodyKeyCount req.body == 0 then
        { status := 400,
          error := some "Request body is empty. Please provide fields to update.",
          store := store, ops := [] }
      else
        match updateTripPlace id req.body store with
        | none =>
          { status := 404,
            error := some ("TripPlace not found with ID: " ++ id),
            store := store, ops := [.update id] }
        | some (_, store2) =>
          { status := 200, error := none, store := store2, ops := [.update id] }
    else if req.method == "DELETE" then
      if !(isAuthorized env req .admin) then
        { status := 403,
          error := some "Forbidden: Only the Admin is authorized to delete itinerary places.",
          store := store, ops := [] }
      else
        match deleteTripPlace id store with
        | none =>
          { status := 404,
            error := some ("TripPlace not found with ID: " ++ id),
            store := store, ops := [.del id] }
        | some (_, store2) =>
          { status := 200, error := none, store := store2, ops := [.del id] }
    else
      { status := 405, error := some "Method Not Allowed", store := store,
        ops := [] }

/-- Shared embedding of the public POST branch of the suggestions
handlers: requires truthy userId, title and text, then inserts a row that
receives the Pending column default. -/
def suggestionsPost (req : ApiRequest) (store : List SuggestionRec) :
    SugResult :=
  let b := req.body
  if !(truthy b.userId) || !(truthy b.title) || !(truthy b.text) then
    { status := 400,
      error := some "Missing required fields: userId, title, and text are mandatory.",
      payload := none, listing := none, store := store, ops := [] }
  else
    let (srec, store2) := createSuggestion store b.userId b.title b.text
    { status := 201, error := none, payload := some srec, listing := none,
      store := store2, ops := [] }

/-- Embedding of the /api/suggestions handler
(src/pages/api/suggestions.ts): GET lists the inbox gated by
`isAdminAuthorized` with a title-cased status filter; POST is the public
create. -/
def suggestionsHandler (env : Env) (req : ApiRequest)
    (store : List SuggestionRec) : SugResult :=
  if req.method == "GET" then
    if !(isAdminAuthorized env req) then
      { status := 403,
        error := some "Forbidden: Admin access required to view the inbox.",
        payload := none, listing := none, store := store, ops := [] }
    else
      match req.queryStatus with
      | none =>
        { status := 200, error := none, payload := none,
          listing := some (getSuggestions none store), store := store, ops := [] }
      | some q =>
        if q == "" then
          { status := 200, error := none, payload := none,
            listing := some (getSuggestions none store), store := store, ops := [] }
        else
          match statusFromString (jsTitleCase q) with
          | none =>
            { status := 400,
              error := some "Invalid status filter. Must be \"pending\", \"approved\", or \"rejected\".",
              payload := none, listing := none, store := store, ops := [] }
          | some st =>
            { status := 200, error := none, payload := none,
              listing := some (getSuggestions (some st) store), store := store,
              ops := [] }
  else if req.method == "POST" then
    suggestionsPost req store
  else
    { status := 405, error := some "Method Not Allowed", payload := none,
      listing := none, store := store, ops := [] }

/-- Embedding of the first /api/suggestions/[id] handler variant
(src/unnamed/part_001, first file): gated by `isAdminAuthorized` before
the method check; the status token is normalized by
`charAt(0).toUpperCase() + slice(1).toLowerCase()` and validated against
the Prisma enum values.  A truthy non-string status makes `charAt` throw,
surfacing as the 500 catch-all. -/
def suggestionIdHandlerV1 (env : Env) (req : ApiRequest)
    (store : List SuggestionRec) : SugResult :=
  if !(isAdminAuthorized env req) then
    { status := 403,
      error := some "Forbidden: Admin access required to update suggestion status.",
      payload := none, listing := none, store := store, ops := [] }
  else if !(req.method == "PATCH") then
    { status := 405,
      error := some "Method Not Allowed. Only PATCH is supported for status updates.",
      payload := none, listing := none, store := store, ops := [] }
  else
    match req.queryId with
    | none =>
      { status := 400, error := some "Suggestion ID is required in the URL path.",
        payload := none, listing := none, store := store, ops := [] }
    | some id =>
      if id == "" then
        { status := 400, error := some "Suggestion ID is required in the URL path.",
          payload := none, listing := none, store := store, ops := [] }
      else if !(truthy req.body.status) then
        { status := 400,
          error := some "Missing required field: status is mandatory for PATCH request body.",
          payload := none, listing := none, store := store, ops := [] }
      else
        match req.body.status with
        | .str s =>
          match statusFromString (jsTitleCase s) with
          | none =>
            { status := 400,
              error := some "Invalid status value. Must be \"Pending\", \"Approved\", or \"Rejected\".",
              payload := none, listing := none, store := store, ops := [] }
          | some st =>
            match updateSuggestionStatus id st store with
            | none =>
              { status := 404,
                error := some ("Suggestion not found with ID: " ++ id),
                payload := none, listing := none, store := store,
                ops := [.update id] }
            | some (updated, store2) =>
              { status := 200, error := none, payload := some updated,
                listing := none, store := store2, ops := [.update id] }
        | _ =>
          { status := 500,
            error := some "Failed to update suggestion status due to a server error.",
            payload := none, listing := none, store := store, ops := [] }

/-- Embedding of the second /api/suggestions/[id] handler variant
(src/unnamed/part_001, second file): PATCH gated by
`isAdminOrTrustedAuthorized`; the status token is normalized by
`toUpperCase()` and validated against the Prisma enum values. -/
def suggestionIdHandlerV2 (env : Env) (req : ApiRequest)
    (store : List SuggestionRec) : SugResult :=
  if req.method == "PATCH" then
    if !(isAdminOrTrustedAuthorized env req) then
      { status := 403,
        error := some "Forbidden: Authentication required to update suggestion status.",
        payload := none, listing := none, store := store, ops := [] }
    else
      match req.queryId with
      | none =>
        { status := 400, error := some "Suggestion ID is required in the URL path.",
          payload := none, listing := none, store := store, ops := [] }
      | some id =>
        if id == "" then
          { status := 400, error := some "Suggestion ID is required in the URL path.",
            payload := none, listing := none, store := store, ops := [] }
        else if !(truthy req.body.status) then
          { status := 400,
            error := some "Missing required field: status is mandatory for PATCH request body.",
            payload := none, listing := none, store := store, ops := [] }
        else
          match req.body.status with
          | .str s =>
            match statusFromString (jsToUpper s) with
            | none =>
              { status := 400,
                error := some "Invalid status value. Must be \"pending\", \"approved\", or \"rejected\".",
                payload := none, listing := none, store := store, ops := [] }
            | some st =>
              match updateSuggestionStatus id st store with
              | none =>
                { status := 404,
                  error := some ("Suggestion not found with ID: " ++ id),
                  payload := none, listing := none, store := store,
                  ops := [.update id] }
              | some (updated, store2) =>
                { status := 200, error := none, payload := some updated,
                  listing := none, store := store2, ops := [.update id] }
          | _ =>
            { status := 500,
              error := some "Failed to update suggestion status due to a server error.",
              payload := none, listing := none, store := store, ops := [] }
  else
    { status := 405,
      error := some "Method Not Allowed. Only PATCH is supported for status updates.",
      payload := none, listing := none, store := store, ops := [] }

/-- Embedding of the unified /api/suggestions handler
(src/unnamed/part_003): GET gated by `isAuthorized(req, 'admin')` with an
upper-cased status filter; POST is the public create; PATCH gated by
`isAdminOrTrustedAuthorized` takes id and status from the body and
normalizes the status token by `toUpperCase()`. -/
def suggestionsUnifiedHandler (env : Env) (req : ApiRequest)
    (store : List SuggestionRec) : SugResult :=
  if req.method == "GET" then
    if !(isAuthorized env req .admin) then
      { status := 403,
        error := some "Forbidden: Admin access required to view the inbox.",
        payload := none, listing := none, store := store, ops := [] }
    else
      match req.queryStatus with
      | none =>
        { status := 200, error := none, payload := none,
          listing := some (getSuggestions none store), store := store, ops := [] }
      | some q =>
        if q == "" then
          { status := 200, error := none, payload := none,
            listing := some (getSuggestions none store), store := store, ops := [] }
        else
          match statusFromString (jsToUpper q) with
          | none =>
            { status := 400,
              error := some "Invalid status filter. Must be \"pending\", \"approved\", or \"rejected\".",
              payload := none, listing := none, store := store, ops := [] }
          | some st =>
            { status := 200, error := none, payload := none,
              listing := some (getSuggestions (some st) store), store := store,
              ops := [] }
  else if req.method == "POST" then
    suggestionsPost req store
  else if req.method == "PATCH" then
    if !(isAdminOrTrustedAuthorized env req) then
      { status := 403,
        error := some "Forbidden: Trusted user access required to update suggestions.",
        payload := none, listing := none, store := store, ops := [] }
    else if !(truthy req.body.id) || !(truthy req.body.status) then
      { status := 400,
        error := some "Missing required fields: id and status are mandatory for updating.",
        payload := none, listing := none, store := store, ops := [] }
    else
      match req.body.status with
      | .str s =>
        match statusFromString (jsToUpper s) with
        | none =>
          { status := 400,
            error := some "Invalid status provided. Must be \"pending\", \"approved\", or \"rejected\".",
            payload := none, listing := none, store := store, ops := [] }
        | some st =>
          match req.body.id with
          | .str id =>
            match updateSuggestionStatus id st store with
            | none =>
              { status := 500,
                error := some "Failed to process suggestion request due to a server error.",
                payload := none, listing := none, store := store,
                ops := [.update id] }
            | some (updated, store2) =>
              { status := 200, error := none, payload := some updated,
                listing := none, store := store2, ops := [.update id] }
          | _ =>
            { status := 500,
              error := some "Failed to process suggestion request due to a server error.",
              payload := none, listing := none, store := store, ops := [] }
      | _ =>
        { status := 500,
          error := some "Failed to process suggestion request due to a server error.",
          payload := none, listing := none, store := store, ops := [] }
  else
    { status := 405, error := some "Method Not Allowed", payload := none,
      listing := none, store := store, ops := [] }

/-! Helper lemmas about the ASCII case model.  The key facts: upper-casing
never produces a lower-case ASCII letter, so an upper-cased token can
never equal one of the title-case Prisma enum values; and lower-casing
after title-casing agrees with plain lower-casing. -/

theorem toNat_ofNat_small (n : Nat) (h : n < 55296) : (Char.ofNat n).toNat = n := by
  rw [Char.ofNat, dif_pos (Or.inl h)]
  rfl

theorem jsCharToUpper_not_lower (c : Char) :
    ¬(97 ≤ (jsCharToUpper c).toNat ∧ (jsCharToUpper c).toNat ≤ 122) := by
  unfold jsCharToUpper
  by_cases h : 97 ≤ c.toNat ∧ c.toNat ≤ 122
  · rw [if_pos h, toNat_ofNat_small (c.toNat - 32) (by omega)]
    omega
  · rw [if_neg h]
    omega

theorem jsCharToLower_jsCharToUpper (c : Char) :
    jsCharToLower (jsCharToUpper c) = jsCharToLower c := by
  unfold jsCharToUpper jsCharToLower
  by_cases h : 97 ≤ c.toNat ∧ c.toNat ≤ 122
  · rw [if_pos h]
    rw [if_pos (by rw [toNat_ofNat_small (c.toNat - 32) (by omega)]; omega)]
    rw [if_neg (by omega)]
    rw [toNat_ofNat_small (c.toNat - 32) (by omega)]
    have h32 : c.toNat - 32 + 32 = c.toNat := by omega
    rw [h32, Char.ofNat_toNat]
  · rw [if_neg h]

theorem jsCharToLower_idem (c : Char) :
    jsCharToLower (jsCharToLower c) = jsCharToLower c := by
  unfold jsCharToLower
  by_cases h : 65 ≤ c.toNat ∧ c.toNat ≤ 90
  · rw [if_pos h]
    rw [if_neg (by rw [toNat_ofNat_small (c.toNat + 32) (by omega)]; omega)]
  · rw [if_neg h, if_neg h]

theorem jsToUpper_ne_of_lower_mem (s w : String) (c : Char) (hmem : c ∈ w.data)
    (hlow : 97 ≤ c.toNat ∧ c.toNat ≤ 122) : jsToUpper s ≠ w := by
  intro h
  have hm : c ∈ (jsToUpper s).data := by rw [h]; exact hmem
  unfold jsToUpper at hm
  simp only [String.data] at hm
  rcases List.mem_map.mp hm with ⟨a, _, ha⟩
  exact jsCharToUpper_not_lower a (ha ▸ hlow)

theorem jsToLower_jsTitleCase (s : String) :
    jsToLower (jsTitleCase s) = jsToLower s := by
  cases s with
  | mk l =>
    cases l with
    | nil => rfl
    | cons c rest =>
      show jsToLower (String.mk (jsCharToUpper c :: rest.map jsCharToLower)) =
        jsToLower (String.mk (c :: rest))
      unfold jsToLower
      simp only [List.map_cons, jsCharToLower_jsCharToUpper, List.map_map]
      congr 2
      apply List.map_congr_left
      intro a _
      exact jsCharToLower_idem a

/-- An upper-cased token is never one of the title-case Prisma enum
values, so the validation of the toUpperCase-based handlers rejects every
status token. -/
theorem statusFromString_jsToUpper (s : String) :
    statusFromString (jsToUpper s) = none := by
  have h1 : jsToUpper s ≠ "Pending" :=
    jsToUpper_ne_of_lower_mem s "Pending" 'e' (by decide) (by decide)
  have h2 : jsToUpper s ≠ "Approved" :=
    jsToUpper_ne_of_lower_mem s "Approved" 'p' (by decide) (by decide)
  have h3 : jsToUpper s ≠ "Rejected" :=
    jsToUpper_ne_of_lower_mem s "Rejected" 'e' (by decide) (by decide)
  simp [statusFromString, beq_iff_eq, h1, h2, h3]

/-- A token whose lower-casing is outside the legal lower-case set is
rejected by the title-case-based validation. -/
theorem statusFromString_jsTitleCase_eq_none (s : String)
    (h1 : jsToLower s ≠ "pending") (h2 : jsToLower s ≠ "approved")
    (h3 : jsToLower s ≠ "rejected") :
    statusFromString (jsTitleCase s) = none := by
  have g1 : jsTitleCase s ≠ "Pending" := by
    intro hEq
    exact h1 (by rw [← jsToLower_jsTitleCase, hEq]; decide)
  have g2 : jsTitleCase s ≠ "Approved" := by
    intro hEq
    exact h2 (by rw [← jsToLower_jsTitleCase, hEq]; decide)
  have g3 : jsTitleCase s ≠ "Rejected" := by
    intro hEq
    exact h3 (by rw [← jsToLower_jsTitleCase, hEq]; decide)
  simp [statusFromString, beq_iff_eq, g1, g2, g3]

/-- C1: for configured admin secret A and trusted secret T (A ≠ T, both
non-empty, each configured consistently in the variables both predicates
read), a header equal to A satisfies both the is-admin predicate and the
is-admin-or-trusted predicate; a header equal to T satisfies
is-admin-or-trusted but not is-admin; any other header value, or an
absent header, satisfies neither. -/
theorem c1_secret_matrix (env : Env) (A T : String) (req : ApiRequest)
    (hA1 : env.NEXT_PUBLIC_ADMIN_SECRET = some A)
    (hA2 : env.ADMIN_SECRET_KEY = some A)
    (hT1 : env.NEXT_PUBLIC_TRUSTED_SECRET = some T)
    (hT2 : env.TRUSTED_USER_KEY = some T)
    (hAT : A ≠ T) (hAne : A ≠ "") (hTne : T ≠ "") :
    (req.xAuthSecret = some A →
      isAuthorized env req .admin = true ∧
      isAdminOrTrustedAuthorized env req = true) ∧
    (req.xAuthSecret = some T →
      isAdminOrTrustedAuthorized env req = true ∧
      isAuthorized env req .admin = false) ∧
    (req.xAuthSecret ≠ some A → req.xAuthSecret ≠ some T →
      isAuthorized env req .admin = false ∧
      isAdminOrTrustedAuthorized env req = false) := by
  refine ⟨?_, ?_, ?_⟩
  · intro hh
    constructor
    · simp [isAuthorized, hA1, hh, truthyOpt, jsStrictEq, hAne]
    · simp [isAdminOrTrustedAuthorized, hA2, hT2, hh, truthyOpt, jsStrictEq, hAne]
  · intro hh
    constructor
    · simp [isAdminOrTrustedAuthorized, hA2, hT2, hh, truthyOpt, jsStrictEq, hTne]
    · have hTA : (T == A) = false := beq_eq_false_iff_ne.mpr (Ne.symm hAT)
      simp [isAuthorized, hA1, hh, truthyOpt, jsStrictEq, hAne, hTA]
  · intro hdA hdT
    cases hh : req.xAuthSecret with
    | none =>
      constructor
      · simp [isAuthorized, hA1, hh, truthyOpt, jsStrictEq, hAne]
      · simp [isAdminOrTrustedAuthorized, hh, truthyOpt]
    | some v =>
      rw [hh] at hdA hdT
      have hvA : v ≠ A := fun hc => hdA (by rw [hc])
      have hvT : v ≠ T := fun hc => hdT (by rw [hc])
      constructor
      · simp [isAuthorized, hA1, hh, truthyOpt, jsStrictEq, hAne, beq_iff_eq, hvA]
      · by_cases hv : v = ""
        · simp [isAdminOrTrustedAuthorized, hh, hv, truthyOpt]
        · simp [isAdminOrTrustedAuthorized, hA2, hT2, hh, truthyOpt, jsStrictEq,
            beq_iff_eq, hv, hvA, hvT]

/-- C1 witness: the matrix evaluated at a concrete coherent configuration
and a concrete admin request. -/
theorem c1_secret_matrix_witness :
    isAuthorized (Env.mk (some "alpha") (some "beta") (some "alpha") (some "beta"))
      (ApiRequest.mk "GET" (some "alpha") none none none emptyBody) Role.admin = true ∧
    isAdminOrTrustedAuthorized
      (Env.mk (some "alpha") (some "beta") (some "alpha") (some "beta"))
      (ApiRequest.mk "GET" (some "alpha") none none none emptyBody) = true :=
  (c1_secret_matrix
    (Env.mk (some "alpha") (some "beta") (some "alpha") (some "beta"))
    "alpha" "beta"
    (ApiRequest.mk "GET" (some "alpha") none none none emptyBody)
    rfl rfl rfl rfl (by decide) (by decide) (by decide)).1 rfl

/-- C4 counterexample: with the admin secret configured only in
NEXT_PUBLIC_ADMIN_SECRET (the variable `isAuthorized` reads) and
ADMIN_SECRET_KEY unset (the variable `isAdminOrTrustedAuthorized` reads),
a request presenting that secret satisfies the is-admin predicate but not
the is-admin-or-trusted predicate, refuting the claim as stated. -/
theorem c4_admin_not_or_trusted_cex :
    isAuthorized (Env.mk (some "alpha") none none none)
      (ApiRequest.mk "GET" (some "alpha") none none none emptyBody)
      Role.admin = true ∧
    isAdminOrTrustedAuthorized (Env.mk (some "alpha") none none none)
      (ApiRequest.mk "GET" (some "alpha") none none none emptyBody) = false := by
  decide

/-- C4 amended: whenever the admin secret is configured consistently for
both predicates (ADMIN_SECRET_KEY equal to NEXT_PUBLIC_ADMIN_SECRET), any
request satisfying the is-admin predicate also satisfies the
is-admin-or-trusted predicate. -/
theorem c4_admin_implies_or_trusted (env : Env) (req : ApiRequest)
    (hcoh : env.ADMIN_SECRET_KEY = env.NEXT_PUBLIC_ADMIN_SECRET)
    (h : isAuthorized env req .admin = true) :
    isAdminOrTrustedAuthorized env req = true := by
  have heq : isAuthorized env req .admin =
      (if !(truthyOpt env.NEXT_PUBLIC_ADMIN_SECRET) then false
       else jsStrictEq req.xAuthSecret env.NEXT_PUBLIC_ADMIN_SECRET) := rfl
  rw [heq] at h
  cases hA : env.NEXT_PUBLIC_ADMIN_SECRET with
  | none => rw [hA] at h; simp [truthyOpt] at h
  | some k =>
    rw [hA] at h
    cases hh : req.xAuthSecret with
    | none =>
      rw [hh] at h
      by_cases hk : k = "" <;>
        simp [truthyOpt, jsStrictEq, beq_iff_eq, hk] at h
    | some v =>
      rw [hh] at h
      by_cases hk : k = ""
      · simp [truthyOpt, hk] at h
      · have hv : v = k := by
          simp [truthyOpt, jsStrictEq, beq_iff_eq, hk] at h
          exact h
        subst hv
        simp [isAdminOrTrustedAuthorized, hh, hcoh, hA, truthyOpt, jsStrictEq,
          beq_iff_eq, hk]

/-- C4 witness: the amended implication evaluated at a concrete coherent
configuration. -/
theorem c4_admin_implies_or_trusted_witness :
    isAdminOrTrustedAuthorized (Env.mk (some "alpha") none (some "alpha") none)
      (ApiRequest.mk "GET" (some "alpha") none none none emptyBody) = true :=
  c4_admin_implies_or_trusted
    (Env.mk (some "alpha") none (some "alpha") none)
    (ApiRequest.mk "GET" (some "alpha") none none none emptyBody)
    rfl (by decide)

/-- C6: when the admin secret is unset, the is-admin predicate is false
for every request, whatever the header carries. -/
theorem c6_unset_admin_fails_closed (env : Env) (req : ApiRequest)
    (h : env.NEXT_PUBLIC_ADMIN_SECRET = none) :
    isAuthorized env req .admin = false := by
  simp [isAuthorized, h, truthyOpt]

/-- C6 witness: the fail-closed behaviour at a concrete unset
configuration and a request that even presents a header. -/
theorem c6_unset_admin_fails_closed_witness :
    isAuthorized (Env.mk none (some "beta") none (some "beta"))
      (ApiRequest.mk "DELETE" (some "") none none none emptyBody)
      Role.admin = false :=
  c6_unset_admin_fails_closed
    (Env.mk none (some "beta") none (some "beta"))
    (ApiRequest.mk "DELETE" (some "") none none none emptyBody) rfl

/-- C10: a request whose x-auth-secret header is absent or empty satisfies
neither predicate, for every configuration state and both roles. -/
theorem c10_empty_header_never_authorized (env : Env) (req : ApiRequest)
    (role : Role) (h : req.xAuthSecret = none ∨ req.xAuthSecret = some "") :
    isAuthorized env req role = false ∧
    isAdminOrTrustedAuthorized env req = false := by
  have hkey : ∀ key : Option String,
      (if !(truthyOpt key) then false else jsStrictEq req.xAuthSecret key) = false := by
    intro key
    cases key with
    | none => simp [truthyOpt]
    | some k =>
      by_cases hk : k = ""
      · simp [truthyOpt, hk]
      · rcases h with hh | hh <;>
          simp [truthyOpt, jsStrictEq, hk, hh, beq_iff_eq, Ne.symm hk]
  constructor
  · cases role with
    | admin => exact hkey env.NEXT_PUBLIC_ADMIN_SECRET
    | trusted => exact hkey env.NEXT_PUBLIC_TRUSTED_SECRET
  · rcases h with hh | hh <;> simp [isAdminOrTrustedAuthorized, hh, truthyOpt]

/-- C10 witness: the predicates evaluated with an absent header against a
configuration in which every secret is unset. -/
theorem c10_empty_header_never_authorized_witness :
    isAuthorized (Env.mk none none none none)
      (ApiRequest.mk "GET" none none none none emptyBody) Role.admin = false ∧
    isAdminOrTrustedAuthorized (Env.mk none none none none)
      (ApiRequest.mk "GET" none none none none emptyBody) = false :=
  c10_empty_header_never_authorized (Env.mk none none none none)
    (ApiRequest.mk "GET" none none none none emptyBody) Role.admin (Or.inl rfl)

/-- C2 (code-bug evidence): a well-formed POST creating an itinerary stop
with the header equal to the trusted secret (coherent configuration,
trusted distinct from admin) is rejected with 403 by both create-handler
variants, although the same request satisfies the admin-or-trusted
predicate: both variants gate create with the admin-only check, contrary
to the claim, to the policy table, and to the comments in the handlers
themselves. -/
theorem c2_trusted_create_rejected :
    (itineraryHandlerV2
      (Env.mk (some "alpha") (some "beta") (some "alpha") (some "beta"))
      (ApiRequest.mk "POST" (some "beta") none none none
        (ReqBody.mk .undef .undef .undef .undef .undef (.num 2) (.str "10:00")
          (.str "Cat cafe") (.str "Food") .undef (.num 35) (.num 139)))
      []).status = 403 ∧
    (itineraryHandlerV2
      (Env.mk (some "alpha") (some "beta") (some "alpha") (some "beta"))
      (ApiRequest.mk "POST" (some "beta") none none none
        (ReqBody.mk .undef .undef .undef .undef .undef (.num 2) (.str "10:00")
          (.str "Cat cafe") (.str "Food") .undef (.num 35) (.num 139)))
      []).store = [] ∧
    (itineraryHandlerV1
      (Env.mk (some "alpha") (some "beta") (some "alpha") (some "beta"))
      (ApiRequest.mk "POST" (some "beta") none none none
        (ReqBody.mk .undef .undef .undef .undef .undef (.num 2) (.str "10:00")
          (.str "Cat cafe") (.str "Food") .undef (.num 35) (.num 139)))
      []).status = 403 ∧
    isAdminOrTrustedAuthorized
      (Env.mk (some "alpha") (some "beta") (some "alpha") (some "beta"))
      (ApiRequest.mk "POST" (some "beta") none none none
        (ReqBody.mk .undef .undef .undef .undef .undef (.num 2) (.str "10:00")
          (.str "Cat cafe") (.str "Food") .undef (.num 35) (.num 139))) = true := by
  decide

/-- C3 (code-bug evidence): a PATCH setting a suggestion status to
"approved" with the header equal to the trusted secret is rejected with
400 by the toUpperCase-based handlers the claim cites, and the stored
status stays Pending; even the canonical token "Approved" is rejected,
because toUpperCase can never produce the title-case Prisma enum values,
contrary to the case-insensitivity the handler comment announces. -/
theorem c3_trusted_approve_rejected :
    (suggestionIdHandlerV2
      (Env.mk (some "alpha") (some "beta") (some "alpha") (some "beta"))
      (ApiRequest.mk "PATCH" (some "beta") (some "0") none none
        (ReqBody.mk .undef .undef .undef (.str "approved") .undef .undef .undef
          .undef .undef .undef .undef .undef))
      [SuggestionRec.mk "0" (.str "u1") (.str "Cat cafe") (.str "because cats")
        .Pending]).status = 400 ∧
    (suggestionIdHandlerV2
      (Env.mk (some "alpha") (some "beta") (some "alpha") (some "beta"))
      (ApiRequest.mk "PATCH" (some "beta") (some "0") none none
        (ReqBody.mk .undef .undef .undef (.str "approved") .undef .undef .undef
          .undef .undef .undef .undef .undef))
      [SuggestionRec.mk "0" (.str "u1") (.str "Cat cafe") (.str "because cats")
        .Pending]).store =
      [SuggestionRec.mk "0" (.str "u1") (.str "Cat cafe") (.str "because cats")
        .Pending] ∧
    isAdminOrTrustedAuthorized
      (Env.mk (some "alpha") (some "beta") (some "alpha") (some "beta"))
      (ApiRequest.mk "PATCH" (some "beta") (some "0") none none
        (ReqBody.mk .undef .undef .undef (.str "approved") .undef .undef .undef
          .undef .undef .undef .undef .undef)) = true ∧
    (suggestionsUnifiedHandler
      (Env.mk (some "alpha") (some "beta") (some "alpha") (some "beta"))
      (ApiRequest.mk "PATCH" (some "beta") none none none
        (ReqBody.mk .undef .undef .undef (.str "approved") (.str "0") .undef
          .undef .undef .undef .undef .undef .undef))
      [SuggestionRec.mk "0" (.str "u1") (.str "Cat cafe") (.str "because cats")
        .Pending]).status = 400 ∧
    (suggestionIdHandlerV2
      (Env.mk (some "alpha") (some "beta") (some "alpha") (some "beta"))
      (ApiRequest.mk "PATCH" (some "beta") (some "0") none none
        (ReqBody.mk .undef .undef .undef (.str "Approved") .undef .undef .undef
          .undef .undef .undef .undef .undef))
      [SuggestionRec.mk "0" (.str "u1") (.str "Cat cafe") (.str "because cats")
        .Pending]).status = 400 := by
  decide

/-- C5: a DELETE on an itinerary stop succeeds (200) only when the
is-admin predicate holds, and a request that satisfies only the
admin-or-trusted predicate is rejected with 403 without any delete
operation reaching the store. -/
theorem c5_delete_requires_admin (env : Env) (req : ApiRequest)
    (store : List TripPlaceRec) (i : String)
    (hm : req.method = "DELETE") (hid : req.queryId = some i) (hine : i ≠ "") :
    ((itineraryIdHandler env req store).status = 200 →
      isAuthorized env req .admin = true) ∧
    (isAdminOrTrustedAuthorized env req = true →
      isAuthorized env req .admin = false →
      (itineraryIdHandler env req store).status = 403 ∧
      (itineraryIdHandler env req store).ops = [] ∧
      (itineraryIdHandler env req store).store = store) := by
  have hres : itineraryIdHandler env req store =
      (if !(isAuthorized env req .admin) then
        { status := 403,
          error := some "Forbidden: Only the Admin is authorized to delete itinerary places.",
          store := store, ops := [] }
      else
        match deleteTripPlace i store with
        | none =>
          { status := 404,
            error := some ("TripPlace not found with ID: " ++ i),
            store := store, ops := [.del i] }
        | some (_, store2) =>
          { status := 200, error := none, store := store2, ops := [.del i] }) := by
    unfold itineraryIdHandler
    rw [hid]
    simp [beq_iff_eq, hine, hm]
  constructor
  · intro h200
    by_contra hnot
    rw [Bool.not_eq_true] at hnot
    rw [hres] at h200
    simp [hnot] at h200
  · intro _ hnotadmin
    rw [hres]
    simp [hnotadmin]

/-- C5 witness: the 403-and-no-delete half evaluated for a concrete
trusted-but-not-admin request. -/
theorem c5_delete_requires_admin_witness :
    (itineraryIdHandler
      (Env.mk (some "alpha") (some "beta") (some "alpha") (some "beta"))
      (ApiRequest.mk "DELETE" (some "beta") (some "7") none none emptyBody)
      [TripPlaceRec.mk "7" (.num 1) (.str "09:00") (.str "Museum")
        (.str "Sightseeing") .null (.num 35) (.num 139)]).status = 403 ∧
    (itineraryIdHandler
      (Env.mk (some "alpha") (some "beta") (some "alpha") (some "beta"))
      (ApiRequest.mk "DELETE" (some "beta") (some "7") none none emptyBody)
      [TripPlaceRec.mk "7" (.num 1) (.str "09:00") (.str "Museum")
        (.str "Sightseeing") .null (.num 35) (.num 139)]).ops = [] ∧
    (itineraryIdHandler
      (Env.mk (some "alpha") (some "beta") (some "alpha") (some "beta"))
      (ApiRequest.mk "DELETE" (some "beta") (some "7") none none emptyBody)
      [TripPlaceRec.mk "7" (.num 1) (.str "09:00") (.str "Museum")
        (.str "Sightseeing") .null (.num 35) (.num 139)]).store =
      [TripPlaceRec.mk "7" (.num 1) (.str "09:00") (.str "Museum")
        (.str "Sightseeing") .null (.num 35) (.num 139)] :=
  (c5_delete_requires_admin
    (Env.mk (some "alpha") (some "beta") (some "alpha") (some "beta"))
    (ApiRequest.mk "DELETE" (some "beta") (some "7") none none emptyBody)
    [TripPlaceRec.mk "7" (.num 1) (.str "09:00") (.str "Museum")
      (.str "Sightseeing") .null (.num 35) (.num 139)]
    "7" rfl rfl (by decide)).2 (by decide) (by decide)

/-- C7: a PATCH whose status token lower-cases outside the legal set, on
an authorized request with an id, is rejected with 400 by both cited
handlers, the error names all three legal values, and the store is left
untouched with no update operation invoked. -/
theorem c7_unknown_token_rejected (env : Env) (req1 req3 : ApiRequest)
    (s : String) (store1 store3 : List SuggestionRec) (i iv : String)
    (hs1 : jsToLower s ≠ "pending") (hs2 : jsToLower s ≠ "approved")
    (hs3 : jsToLower s ≠ "rejected") (hsne : s ≠ "")
    (h1a : isAdminAuthorized env req1 = true) (h1m : req1.method = "PATCH")
    (h1id : req1.queryId = some i) (h1ine : i ≠ "")
    (h1s : req1.body.status = .str s)
    (h3m : req3.method = "PATCH")
    (h3a : isAdminOrTrustedAuthorized env req3 = true)
    (h3id : req3.body.id = .str iv) (h3ivne : iv ≠ "")
    (h3s : req3.body.status = .str s) :
    (suggestionIdHandlerV1 env req1 store1).status = 400 ∧
    (suggestionIdHandlerV1 env req1 store1).error =
      some "Invalid status value. Must be \"Pending\", \"Approved\", or \"Rejected\"." ∧
    (suggestionIdHandlerV1 env req1 store1).store = store1 ∧
    (suggestionIdHandlerV1 env req1 store1).ops = [] ∧
    (suggestionsUnifiedHandler env req3 store3).status = 400 ∧
    (suggestionsUnifiedHandler env req3 store3).error =
      some "Invalid status provided. Must be \"pending\", \"approved\", or \"rejected\"." ∧
    (suggestionsUnifiedHandler env req3 store3).store = store3 ∧
    (suggestionsUnifiedHandler env req3 store3).ops = [] := by
  have hnone1 := statusFromString_jsTitleCase_eq_none s hs1 hs2 hs3
  have hnone3 := statusFromString_jsToUpper s
  have hr1 : suggestionIdHandlerV1 env req1 store1 =
      { status := 400,
        error := some "Invalid status value. Must be \"Pending\", \"Approved\", or \"Rejected\".",
        payload := none, listing := none, store := store1, ops := [] } := by
    unfold suggestionIdHandlerV1
    rw [h1a, h1m, h1id, h1s]
    simp [truthy, beq_iff_eq, h1ine, hsne, hnone1]
  have hr3 : suggestionsUnifiedHandler env req3 store3 =
      { status := 400,
        error := some "Invalid status provided. Must be \"pending\", \"approved\", or \"rejected\".",
        payload := none, listing := none, store := store3, ops := [] } := by
    unfold suggestionsUnifiedHandler
    rw [h3m, h3a, h3id, h3s]
    simp [truthy, beq_iff_eq, h3ivne, hsne, hnone3]
  rw [hr1, hr3]
  exact ⟨rfl, rfl, rfl, rfl, rfl, rfl, rfl, rfl⟩

/-- C7 witness: the token "archived" on concrete authorized requests. -/
theorem c7_unknown_token_rejected_witness :
    (suggestionIdHandlerV1
      (Env.mk (some "alpha") (some "beta") (some "alpha") (some "beta"))
      (ApiRequest.mk "PATCH" (some "alpha") (some "0") none none
        (ReqBody.mk .undef .undef .undef (.str "archived") .undef .undef .undef
          .undef .undef .undef .undef .undef))
      [SuggestionRec.mk "0" (.str "u1") (.str "Cat cafe") (.str "because cats")
        .Pending]).status = 400 ∧
    (suggestionIdHandlerV1
      (Env.mk (some "alpha") (some "beta") (some "alpha") (some "beta"))
      (ApiRequest.mk "PATCH" (some "alpha") (some "0") none none
        (ReqBody.mk .undef .undef .undef (.str "archived") .undef .undef .undef
          .undef .undef .undef .undef .undef))
      [SuggestionRec.mk "0" (.str "u1") (.str "Cat cafe") (.str "because cats")
        .Pending]).ops = [] ∧
    (suggestionsUnifiedHandler
      (Env.mk (some "alpha") (some "beta") (some "alpha") (some "beta"))
      (ApiRequest.mk "PATCH" (some "alpha") none none none
        (ReqBody.mk .undef .undef .undef (.str "archived") (.str "0") .undef
          .undef .undef .undef .undef .undef .undef))
      [SuggestionRec.mk "0" (.str "u1") (.str "Cat cafe") (.str "because cats")
        .Pending]).status = 400 := by
  have h := c7_unknown_token_rejected
    (Env.mk (some "alpha") (some "beta") (some "alpha") (some "beta"))
    (ApiRequest.mk "PATCH" (some "alpha") (some "0") none none
      (ReqBody.mk .undef .undef .undef (.str "archived") .undef .undef .undef
        .undef .undef .undef .undef .undef))
    (ApiRequest.mk "PATCH" (some "alpha") none none none
      (ReqBody.mk .undef .undef .undef (.str "archived") (.str "0") .undef
        .undef .undef .undef .undef .undef .undef))
    "archived"
    [SuggestionRec.mk "0" (.str "u1") (.str "Cat cafe") (.str "because cats")
      .Pending]
    [SuggestionRec.mk "0" (.str "u1") (.str "Cat cafe") (.str "because cats")
      .Pending]
    "0" "0"
    (by decide) (by decide) (by decide) (by decide)
    (by decide) rfl rfl (by decide) rfl
    rfl (by decide) rfl (by decide) rfl
  exact ⟨h.1, h.2.2.2.1, h.2.2.2.2.1⟩

/-- C8: a POST creating a suggestion with non-empty userId, title and
text and no auth header is accepted with 201 and the created record
starts in status Pending, appended to the store. -/
theorem c8_public_create_pending (env : Env) (req : ApiRequest)
    (store : List SuggestionRec) (u t x : String)
    (hm : req.method = "POST") (hh : req.xAuthSecret = none)
    (hu : req.body.userId = .str u) (hu2 : u ≠ "")
    (ht : req.body.title = .str t) (ht2 : t ≠ "")
    (hx : req.body.text = .str x) (hx2 : x ≠ "") :
    (suggestionsHandler env req store).status = 201 ∧
    ∃ srec : SuggestionRec,
      (suggestionsHandler env req store).payload = some srec ∧
      srec.status = .Pending ∧
      (suggestionsHandler env req store).store = store ++ [srec] := by
  have hr : suggestionsHandler env req store =
      { status := 201, error := none,
        payload := some (SuggestionRec.mk (toString store.length) (.str u)
          (.str t) (.str x) .Pending),
        listing := none,
        store := store ++ [SuggestionRec.mk (toString store.length) (.str u)
          (.str t) (.str x) .Pending],
        ops := [] } := by
    unfold suggestionsHandler suggestionsPost createSuggestion
    simp only [hm]
    simp [truthy, beq_iff_eq, hu, ht, hx, hu2, ht2, hx2]
  rw [hr]
  exact ⟨rfl,
    SuggestionRec.mk (toString store.length) (.str u) (.str t) (.str x) .Pending,
    rfl, rfl, rfl⟩

/-- C8 witness: the end-to-end creation scenario of the spec. -/
theorem c8_public_create_pending_witness :
    (suggestionsHandler (Env.mk (some "alpha") (some "beta") (some "alpha") (some "beta"))
      (ApiRequest.mk "POST" none none none none
        (ReqBody.mk (.str "u1") (.str "Cat cafe") (.str "because cats") .undef
          .undef .undef .undef .undef .undef .undef .undef .undef))
      []).status = 201 ∧
    ∃ srec : SuggestionRec,
      (suggestionsHandler (Env.mk (some "alpha") (some "beta") (some "alpha") (some "beta"))
        (ApiRequest.mk "POST" none none none none
          (ReqBody.mk (.str "u1") (.str "Cat cafe") (.str "because cats") .undef
            .undef .undef .undef .undef .undef .undef .undef .undef))
        []).payload = some srec ∧
      srec.status = .Pending ∧
      (suggestionsHandler (Env.mk (some "alpha") (some "beta") (some "alpha") (some "beta"))
        (ApiRequest.mk "POST" none none none none
          (ReqBody.mk (.str "u1") (.str "Cat cafe") (.str "because cats") .undef
            .undef .undef .undef .undef .undef .undef .undef .undef))
        []).store = [] ++ [srec] :=
  c8_public_create_pending
    (Env.mk (some "alpha") (some "beta") (some "alpha") (some "beta"))
    (ApiRequest.mk "POST" none none none none
      (ReqBody.mk (.str "u1") (.str "Cat cafe") (.str "because cats") .undef
        .undef .undef .undef .undef .undef .undef .undef .undef))
    [] "u1" "Cat cafe" "because cats"
    rfl rfl rfl (by decide) rfl (by decide) rfl (by decide)

/-- C9 counterexample: a create request with day equal to -1 passes both
variant validations and is stored with a negative day, refuting the claim
that every accepted stop has day at least 1. -/
theorem c9_negative_day_accepted_cex :
    (itineraryHandlerV2
      (Env.mk (some "alpha") (some "beta") (some "alpha") (some "beta"))
      (ApiRequest.mk "POST" (some "alpha") none none none
        (ReqBody.mk .undef .undef .undef .undef .undef (.num (-1)) (.str "10:00")
          (.str "Cat cafe") (.str "Food") .undef (.num 35) (.num 139)))
      []).status = 201 ∧
    ((itineraryHandlerV2
      (Env.mk (some "alpha") (some "beta") (some "alpha") (some "beta"))
      (ApiRequest.mk "POST" (some "alpha") none none none
        (ReqBody.mk .undef .undef .undef .undef .undef (.num (-1)) (.str "10:00")
          (.str "Cat cafe") (.str "Food") .undef (.num 35) (.num 139)))
      []).created.map TripPlaceRec.day) = some (JsVal.num (-1)) ∧
    (itineraryHandlerV1
      (Env.mk (some "alpha") (some "beta") (some "alpha") (some "beta"))
      (ApiRequest.mk "POST" (some "alpha") none none none
        (ReqBody.mk .undef .undef .undef .undef .undef (.num (-1)) (.str "10:00")
          (.str "Cat cafe") (.str "Food") .undef (.num 35) (.num 139)))
      []).status = 201 ∧
    ((-1 : Int) < 1) := by
  decide

/-- C9 amended: a body accepted by the create endpoint has a truthy day —
for the typed variant a nonzero number — but not necessarily a day that
is at least 1. -/
theorem c9_accepted_day_nonzero (env : Env) (req : ApiRequest)
    (store : List TripPlaceRec) :
    ((itineraryHandlerV2 env req store).status = 201 →
      ∃ n : Int, req.body.day = .num n ∧ n ≠ 0) ∧
    ((itineraryHandlerV1 env req store).status = 201 →
      truthy req.body.day = true) := by
  have hget : ∀ msg : String, ¬((itineraryGet req store msg).status = 201) := by
    intro msg
    unfold itineraryGet
    cases hq : req.queryDay with
    | none => simp
    | some d =>
      by_cases hd : (d == "") = true
      · simp [hd]
      · cases hp : jsParseInt d with
        | none => simp [hd, hp]
        | some n =>
          by_cases hn : n < 1
          · simp [hd, hp, hn]
          · simp [hd, hp, hn]
  constructor
  · intro h
    unfold itineraryHandlerV2 at h
    by_cases hmg : (req.method == "GET") = true
    · rw [if_pos hmg] at h
      exact absurd h (hget "Invalid day parameter. Must be a positive integer.")
    · rw [if_neg hmg] at h
      by_cases hmp : (req.method == "POST") = true
      · rw [if_pos hmp] at h
        by_cases hauth : (!(isAuthorized env req .admin)) = true
        · rw [if_pos hauth] at h
          simp at h
        · rw [if_neg hauth] at h
          by_cases hval : (!(truthy req.body.day) || !(isNum req.body.day) ||
              !(truthy req.body.time) || !(truthy req.body.name) ||
              !(truthy req.body.purpose) || req.body.latitude == .undef ||
              !(isNum req.body.latitude) || req.body.longitude == .undef ||
              !(isNum req.body.longitude)) = true
          · rw [if_pos hval] at h
            simp at h
          · have hday : truthy req.body.day = true := by
              cases hc : truthy req.body.day
              · exact absurd (by simp [hc]) hval
              · rfl
            have hnum : isNum req.body.day = true := by
              cases hc : isNum req.body.day
              · exact absurd (by simp [hc]) hval
              · rfl
            cases hv : req.body.day with
            | num n =>
              refine ⟨n, rfl, ?_⟩
              rw [hv] at hday
              simp [truthy] at hday
              exact hday
            | undef => rw [hv] at hnum; simp [isNum] at hnum
            | null => rw [hv] at hnum; simp [isNum] at hnum
            | str sv => rw [hv] at hnum; simp [isNum] at hnum
      · rw [if_neg hmp] at h
        simp at h
  · intro h
    unfold itineraryHandlerV1 at h
    by_cases hmg : (req.method == "GET") = true
    · rw [if_pos hmg] at h
      exact absurd h (hget "Invalid day parameter.")
    · rw [if_neg hmg] at h
      by_cases hmp : (req.method == "POST") = true
      · rw [if_pos hmp] at h
        by_cases hauth : (!(isAdminAuthorized env req)) = true
        · rw [if_pos hauth] at h
          simp at h
        · rw [if_neg hauth] at h
          by_cases hval : (!(truthy req.body.day) || !(truthy req.body.time) ||
              !(truthy req.body.name) || !(truthy req.body.purpose) ||
              req.body.latitude == .undef || req.body.longitude == .undef) = true
          · rw [if_pos hval] at h
            simp at h
          · cases hc : truthy req.body.day
            · exact absurd (by simp [hc]) hval
            · rfl
      · rw [if_neg hmp] at h
        simp at h

/-- C9 witness: the amended guarantee applied to a concrete accepted
request whose day is 2. -/
theorem c9_accepted_day_nonzero_witness :
    ∃ n : Int,
      (ApiRequest.mk "POST" (some "alpha") none none none
        (ReqBody.mk .undef .undef .undef .undef .undef (.num 2) (.str "10:00")
          (.str "Cat cafe") (.str "Food") .undef (.num 35)
          (.num 139))).body.day = .num n ∧ n ≠ 0 :=
  (c9_accepted_day_nonzero
    (Env.mk (some "alpha") (some "beta") (some "alpha") (some "beta"))
    (ApiRequest.mk "POST" (some "alpha") none none none
      (ReqBody.mk .undef .undef .undef .undef .undef (.num 2) (.str "10:00")
        (.str "Cat cafe") (.str "Food") .undef (.num 35) (.num 139)))
    []).1 (by decide)

end DatePlanner
